import Mathlib

/-!
Verification of the marketrecap episode-processing and digest-delivery
pipeline.  The definitions below are a shallow embedding of the Python
sources (`backend/api/routes/episodes.py`, `backend/workers/tasks.py`,
`backend/services/summarization.py`); theorems settle the specification
claims against them.
-/

namespace MarketRecap

/-! ## Python string primitives

The routes and tasks manipulate URLs with `in`, `split(sep)[0]` and
`split(sep)[-1]`.  We embed these as structural recursions on `List Char`
so that every function evaluates inside the kernel. -/

/-- Head-occurrence test: `headMatch pat cs` holds when `pat` occurs at the
very start of `cs` (the primitive used at each scan position by
`in`/`split`/`re.search`). -/
def headMatch : List Char → List Char → Bool
  | [], _ => true
  | _ :: _, [] => false
  | p :: ps, c :: cs => if p = c then headMatch ps cs else false

/-- Occurrence test at every position: Python's `pat in s`. -/
def containsCore (pat : List Char) : List Char → Bool
  | [] => headMatch pat []
  | c :: cs => headMatch pat (c :: cs) || containsCore pat cs

/-- Python `pat in s` on strings. -/
def pyContains (s pat : String) : Bool := containsCore pat.data s.data

/-- Drop as many leading characters of `cs` as `pat` has (the remainder
after a successful `headMatch`). -/
def dropPat : List Char → List Char → List Char
  | [], cs => cs
  | _ :: _, [] => []
  | _ :: ps, _ :: cs => dropPat ps cs

/-- Everything before the first occurrence of `pat` (the whole list if
there is none): Python `s.split(pat)[0]`. -/
def beforeFirst (pat : List Char) : List Char → List Char
  | [] => []
  | c :: cs => if headMatch pat (c :: cs) then [] else c :: beforeFirst pat cs

/-- Scan keeping the remainder after the most recent occurrence of `pat`
(`best` is the result when no further occurrence is found). -/
def afterLastGo (pat : List Char) (best : List Char) : List Char → List Char
  | [] => best
  | c :: cs =>
      afterLastGo pat (if headMatch pat (c :: cs) then dropPat pat (c :: cs) else best) cs

/-- Python `s.split(pat)[0]`. -/
def pySplitHead (s pat : String) : String := String.mk (beforeFirst pat.data s.data)

/-- Python `s.split(pat)[-1]`.  The separators used by `normalize_url`
(`"youtu.be/"`, `"v="`, `"?"`, `"&"`) have no proper border, so their
occurrences cannot overlap and the last piece of the split is exactly the
suffix after the last occurrence, which is what the scan computes. -/
def pySplitLast (s pat : String) : String := String.mk (afterLastGo pat.data s.data s.data)

/-- Python truthiness of a nullable string column (`None` and `""` are falsy). -/
def pyTruthyOptStr : Option String → Bool
  | none => false
  | some s => decide (s ≠ "")

/-- Python truthiness of a nullable integer column (`None` and `0` are falsy). -/
def pyTruthyOptNat : Option Nat → Bool
  | none => false
  | some n => decide (n ≠ 0)

/-! ## URL classification (`services/transcription.py`) -/

/-- Scan for `re.search(r'(twitter\.com|x\.com)/i/spaces/([a-zA-Z0-9]+)', url)`:
at each position try the `twitter.com` alternative then the `x.com` one; a
marker hit followed by no alphanumeric character makes the regex engine
resume scanning at the next position. -/
def xSpacesScan : List Char → Option (List Char)
  | [] => none
  | c :: cs =>
      if headMatch "twitter.com/i/spaces/".data (c :: cs) then
        let sid := (dropPat "twitter.com/i/spaces/".data (c :: cs)).takeWhile Char.isAlphanum
        if sid = [] then xSpacesScan cs else some sid
      else if headMatch "x.com/i/spaces/".data (c :: cs) then
        let sid := (dropPat "x.com/i/spaces/".data (c :: cs)).takeWhile Char.isAlphanum
        if sid = [] then xSpacesScan cs else some sid
      else xSpacesScan cs

/-- Model of `is_x_spaces_url` from `services/transcription.py`. -/
def is_x_spaces_url (url : String) : Bool := (xSpacesScan url.data).isSome

/-! ## `normalize_url` / `get_url_hash` (`api/routes/episodes.py`) -/

/-- Model of `normalize_url` from `api/routes/episodes.py`. -/
def normalize_url (url : String) : String :=
  if pyContains url "youtube.com" || pyContains url "youtu.be" then
    let videoId :=
      if pyContains url "youtu.be/" then pySplitHead (pySplitLast url "youtu.be/") "?"
      else if pyContains url "v=" then pySplitHead (pySplitLast url "v=") "&"
      else url
    "https://youtube.com/watch?v=" ++ videoId
  else if is_x_spaces_url url then
    match xSpacesScan url.data with
    | some sid => "https://x.com/i/spaces/" ++ String.mk sid
    | none => pySplitHead url "?"
  else pySplitHead url "?"

/-- Model of `get_url_hash` from `api/routes/episodes.py`: the truncated SHA-256 hex
digest is an opaque injective-by-assumption function of the normalized URL,
so it is passed in as a parameter. -/
def get_url_hash (sha256hex32 : String → String) (url : String) : String :=
  sha256hex32 (normalize_url url)

/-! ## Data model (`models/schemas.py`)

Ids are `Nat` (SQLAlchemy autoincrement primary keys), nullable columns are
`Option`, timestamps are abstract `Nat` instants. -/

inductive EpisodeStatus
  | pending
  | processing
  | completed
  | failed
deriving DecidableEq, Repr

structure Source where
  id : Nat
  url : String
  sourceType : String
deriving DecidableEq, Repr

structure Episode where
  id : Nat
  sourceId : Option Nat
  uniqueId : String
  title : Option String
  url : String
  audioUrl : Option String
  transcript : Option String
  summary : Option String
  status : EpisodeStatus
  errorMessage : Option String
  processedAt : Option Nat
deriving DecidableEq, Repr

structure User where
  id : Nat
  email : Option String
  telegramChatId : Option String
  preferredDigestTime : String
deriving DecidableEq, Repr

structure Subscription where
  id : Nat
  userId : Nat
  sourceId : Nat
deriving DecidableEq, Repr

structure DigestQueueItem where
  id : Nat
  userId : Nat
  episodeId : Nat
deriving DecidableEq, Repr

/-- Registry state: the tables touched by the pipeline, plus the
autoincrement counters for the two tables rows are inserted into. -/
structure DB where
  episodes : List Episode
  sources : List Source
  users : List User
  subscriptions : List Subscription
  queue : List DigestQueueItem
  nextEpisodeId : Nat
  nextQueueId : Nat
deriving DecidableEq, Repr

def findEpisode (db : DB) (episodeId : Nat) : Option Episode :=
  db.episodes.find? (fun e => e.id == episodeId)

def findSource (db : DB) (sourceId : Nat) : Option Source :=
  db.sources.find? (fun s => s.id == sourceId)

def findUser (db : DB) (userId : Nat) : Option User :=
  db.users.find? (fun u => u.id == userId)

/-- Point update of one episode row (the ORM mutation + commit). -/
def updateEpisode (db : DB) (episodeId : Nat) (f : Episode → Episode) : DB :=
  { db with episodes := db.episodes.map (fun e => if e.id = episodeId then f e else e) }

/-- Status of an episode row, for stating frame conditions. -/
def epStatus (db : DB) (episodeId : Nat) : Option EpisodeStatus :=
  (findEpisode db episodeId).map (fun e => e.status)

/-- Error message of an episode row. -/
def epError (db : DB) (episodeId : Nat) : Option (Option String) :=
  (findEpisode db episodeId).map (fun e => e.errorMessage)

/-- Invariant of §3: no two `DailyDigestQueue` rows share `(userId, episodeId)`. -/
def queueInvariant (db : DB) : Prop :=
  (db.queue.map (fun qi => (qi.userId, qi.episodeId))).Nodup

instance (db : DB) : Decidable (queueInvariant db) := by
  unfold queueInvariant; infer_instance

/-! ## Summarization service (`services/summarization.py`)

The chat-completion client is opaque: it is passed in as a function
`String → Option String` taking the full prompt, `none` standing for a
raised exception. -/

/-- Text of `SUMMARY_PROMPT` up to (excluding) the `transcript` placeholder;
`.format(transcript=t)` therefore produces `SUMMARY_PROMPT_PRE ++ t ++ "\n"`. -/
def SUMMARY_PROMPT_PRE : String :=
  "## PRIMARY TASK\nSummarize an audio transcript of a podcast or YouTube video in an easily digestible format.\n\n## OVERALL FORMAT & STYLE GUIDELINES\n- The summary will contain four sections: 1) Overall Summary, 2) Main Topics Discussed, 3) Notable Quotes, and 4) Action Items\n- Overall Summary limited to 1-2 sentences only and less than 250 characters\n- Main Topics discussed limit to at most 5 main topics, with a total character limit of less than 2000\n- Notable Quotes limited to 3 quotes\n- Action Items limited to 2 items\n- Use informal, conversational language\n- Do NOT use emojis or hashtags\n- CRITICAL: Use single asterisks for bold text like *this* NOT double asterisks **like this**. Single asterisks render as bold in Telegram.\n- CRITICAL: For italics, use underscores like _this_. Every opening underscore MUST have a closing underscore. Do not leave any unclosed formatting.\n- IMPORTANT: Identify the host and guest(s) from context clues in the transcript (names mentioned, introductions, how people address each other). Always mention who is speaking in the summary and attribute quotes to specific people.\n\n## OUTPUT FORMAT\n\n*Summary: [Video or podcast title here]*\n\n[1-2 sentence overview mentioning the host and guest(s) by name, under 275 characters]\n\n*Main Topics Discussed:*\n\n1. *[Topic Title]*: [Synopsis of the topic discussion]\n\n2. *[Topic Title]*: [Synopsis of the topic discussion]\n\n3. *[Topic Title]*: [Synopsis of the topic discussion]\n\n[Up to 5 topics maximum]\n\n*Notable Quotes:*\n\n1. \"_[Quote text]_\" ([Speaker name], [brief context])\n\n2. \"_[Quote text]_\" ([Speaker name], [brief context])\n\n3. \"_[Quote text]_\" ([Speaker name], [brief context])\n\n*Action Items:*\n\n1. [Actionable takeaway from the content]\n\n2. [Actionable takeaway from the content]\n\n3. [Actionable takeaway from the content]\n\n## TRANSCRIPT\n"

/-- Marker appended by `summarize_transcript` when the transcript is cut. -/
def TRUNCATION_MARKER : String := "\n\n[Transcript truncated due to length...]"

/-- Default `max_chars` of `summarize_transcript`. -/
def SUMMARIZE_MAX_CHARS : Nat := 100000

/-- Python `len` on a string (code points). -/
def pyLen (s : String) : Nat := s.data.length

/-- Python `s[:n]` (first `n` code points). -/
def pySlice (s : String) (n : Nat) : String := String.mk (s.data.take n)

/-- Transcript after the length cap of `summarize_transcript`. -/
def cappedTranscript (transcript : String) (maxChars : Nat) : String :=
  if pyLen transcript > maxChars then pySlice transcript maxChars ++ TRUNCATION_MARKER
  else transcript

/-- Model of `summarize_transcript` from `services/summarization.py`. -/
def summarize_transcript (llm : String → Option String) (transcript : String)
    (maxChars : Nat) : Option String :=
  llm (SUMMARY_PROMPT_PRE ++ cappedTranscript transcript maxChars ++ "\n")

/-- Python `f"...{x}..."` rendering of a nullable title (`None` prints as
the string `"None"`). -/
def renderOptTitle : Option String → String
  | some t => t
  | none => "None"

/-- Text of `DIGEST_SYNTHESIS_PROMPT` up to (excluding) the `summaries`
placeholder. -/
def DIGEST_SYNTHESIS_PRE : String :=
  "You are creating a daily knowledge briefing for a user.\n\nHere are summaries from content they follow. Write:\n1. A 2-3 sentence \"Executive Summary\" connecting any themes across the content\n2. Then list each individual summary below, separated by horizontal rules\n\nKeep it scannable and useful. Use Markdown formatting.\n\nSUMMARIES:\n"

/-- Formatted block the synthesis prompt is built from:
`"\n\n---\n\n".join(f"**{title}**\n\n{summary}")`. -/
def synthFormat (summaries : List (Option String × String)) : String :=
  String.intercalate "\n\n---\n\n"
    (summaries.map (fun s => "**" ++ renderOptTitle s.1 ++ "**\n\n" ++ s.2))

/-- Model of `synthesize_digest` from `services/summarization.py`; each
summary entry is a `(title, summary)` pair. -/
def synthesize_digest (llm : String → Option String)
    (summaries : List (Option String × String)) : Option String :=
  match summaries with
  | [] => some "No new content to summarize today."
  | [s] => some ("# " ++ renderOptTitle s.1 ++ "\n\n" ++ s.2)
  | _ => llm (DIGEST_SYNTHESIS_PRE ++ synthFormat summaries ++ "\n")

/-! ## Episode processor (`workers/tasks.py`, `process_episode_task`)

The long-running capabilities are an environment of functions; every
fallible one returns an outcome / `Option`, `TranscribeOutcome.noCaptions`
standing for a raised `NoCaptionsError`, `TranscribeOutcome.failure` and
`none` for any other raised exception.  The model threads the committed
database state explicitly: an exception handler resumes from the last
commit point, exactly as `db.rollback()` does. -/

inductive TranscribeOutcome
  | ok (transcript : String)
  | noCaptions (msg : String)
  | failure
deriving DecidableEq, Repr

structure ProcEnv where
  getVideoTitle : String → Option String
  processYoutube : String → TranscribeOutcome
  processXSpaces : String → TranscribeOutcome
  processPodcast : String → TranscribeOutcome
  summarizeLLM : String → Option String
  now : Nat

/-- Result classification of one `process_episode_task` invocation.
`retryScheduled c` is `raise self.retry(countdown=c)` with retry budget
remaining; `permanentFailure` is the same raise once
`self.request.retries` has reached `max_retries` (celery then fails the
job for good, so the episode stays FAILED). -/
inductive ProcOutcome
  | notFound
  | alreadyCompleted
  | completed
  | failedNoCaptions (msg : String)
  | retryScheduled (countdown : Nat)
  | permanentFailure
deriving DecidableEq, Repr

/-- Invocation result: final committed state, outcome, and how many
transcription (`process_*`) and summarization (`summarize_transcript`)
capability calls were made. -/
structure ProcResult where
  db : DB
  outcome : ProcOutcome
  transcribeCalls : Nat
  summarizeCalls : Nat
deriving DecidableEq, Repr

/-- The `@celery_app.task(bind=True, max_retries=3)` budget of
`process_episode_task`. -/
def PROCESS_MAX_RETRIES : Nat := 3

/-- Outcome of `raise self.retry(exc=e, countdown=c)` given the number of
retries already performed. -/
def scheduleRetry (retries countdown : Nat) : ProcOutcome :=
  if retries < PROCESS_MAX_RETRIES then .retryScheduled countdown else .permanentFailure

/-- Generic `except Exception` handler of `process_episode_task`: roll back
to `db` (the last committed state), re-query the episode, set FAILED with
no message, commit, and retry with exponential backoff `60 * 2 ** retries`. -/
def genericFailure (db : DB) (episodeId retries tc sc : Nat) : ProcResult :=
  let db' := match findEpisode db episodeId with
    | some _ => updateEpisode db episodeId (fun e => { e with status := .failed })
    | none => db
  ⟨db', scheduleRetry retries (60 * 2 ^ retries), tc, sc⟩

/-- `except NoCaptionsError` handler: roll back, set FAILED with the
structured message, commit, return without scheduling a retry. -/
def noCaptionsFailure (db : DB) (episodeId : Nat) (msg : String) (tc sc : Nat) : ProcResult :=
  let db' := match findEpisode db episodeId with
    | some _ =>
        updateEpisode db episodeId (fun e => { e with status := .failed, errorMessage := some msg })
    | none => db
  ⟨db', .failedNoCaptions msg, tc, sc⟩

/-- Source-type classification step of `process_episode_task` (`None` is the
raised `ValueError`).  `if episode.source_id:` is Python truthiness, so a
`0` id is treated like a missing one. -/
def detectSourceType (db : DB) (episode : Episode) : Option String :=
  let source := match episode.sourceId with
    | some sid => if sid = 0 then none else findSource db sid
    | none => none
  match source with
  | some s => some s.sourceType
  | none =>
      if pyContains episode.url "youtube.com" || pyContains episode.url "youtu.be" then
        some "youtube"
      else if is_x_spaces_url episode.url then some "x_spaces"
      else if pyTruthyOptStr episode.audioUrl then some "podcast"
      else none

/-- Title back-fill for YouTube / Spaces episodes: fetch via yt-dlp when the
stored title is falsy, commit only when the fetched title is truthy. -/
def maybeFetchTitle (env : ProcEnv) (db : DB) (episodeId : Nat) (episode : Episode) : DB :=
  if pyTruthyOptStr episode.title then db
  else match env.getVideoTitle episode.url with
    | some t => if t = "" then db else updateEpisode db episodeId (fun e => { e with title := some t })
    | none => db

/-- Fan-out, `queue_for_subscribers` in `workers/tasks.py`: one
`DailyDigestQueue` row per subscription of the episode's source, skipping
`(userId, episodeId)` pairs already present (the session autoflushes, so
rows added earlier in the loop are seen by later duplicate checks). -/
def queue_for_subscribers (db : DB) (episode : Episode) : DB :=
  let subs := db.subscriptions.filter (fun sub => some sub.sourceId == episode.sourceId)
  subs.foldl (fun acc sub =>
    match acc.queue.find? (fun qi => qi.userId == sub.userId && qi.episodeId == episode.id) with
    | some _ => acc
    | none =>
        { acc with queue := acc.queue ++ [⟨acc.nextQueueId, sub.userId, episode.id⟩],
                   nextQueueId := acc.nextQueueId + 1 }) db

/-- Tail of the processor after a successful transcription: assign the
transcript, summarize, persist transcript + summary + COMPLETED +
`processed_at` in one commit, then fan out.  A summarization exception
rolls the uncommitted transcript back and lands in the generic handler. -/
def summarizeAndComplete (env : ProcEnv) (db : DB) (episodeId : Nat) (episode : Episode)
    (transcript : String) (retries : Nat) : ProcResult :=
  match summarize_transcript env.summarizeLLM transcript SUMMARIZE_MAX_CHARS with
  | none => genericFailure db episodeId retries 1 1
  | some summary =>
      let db3 := updateEpisode db episodeId (fun e =>
        { e with transcript := some transcript, summary := some summary,
                 status := .completed, processedAt := some env.now })
      ⟨queue_for_subscribers db3 episode, .completed, 1, 1⟩

/-- Model of `process_episode_task` from `workers/tasks.py`. `retries` is
`self.request.retries` for this invocation. -/
def process_episode_task (env : ProcEnv) (retries episodeId : Nat) (db : DB) : ProcResult :=
  match findEpisode db episodeId with
  | none => ⟨db, .notFound, 0, 0⟩
  | some episode =>
      if episode.status = .completed then ⟨db, .alreadyCompleted, 0, 0⟩
      else
        let db1 := updateEpisode db episodeId (fun e => { e with status := .processing })
        match detectSourceType db1 episode with
        | none => genericFailure db1 episodeId retries 0 0
        | some stype =>
            if stype = "youtube" then
              let db2 := maybeFetchTitle env db1 episodeId episode
              match env.processYoutube episode.url with
              | .ok transcript => summarizeAndComplete env db2 episodeId episode transcript retries
              | .noCaptions msg => noCaptionsFailure db2 episodeId msg 1 0
              | .failure => genericFailure db2 episodeId retries 1 0
            else if stype = "x_spaces" then
              let db2 := maybeFetchTitle env db1 episodeId episode
              match env.processXSpaces episode.url with
              | .ok transcript => summarizeAndComplete env db2 episodeId episode transcript retries
              | .noCaptions msg => noCaptionsFailure db2 episodeId msg 1 0
              | .failure => genericFailure db2 episodeId retries 1 0
            else
              if pyTruthyOptStr episode.audioUrl then
                match env.processPodcast (episode.audioUrl.getD "") with
                | .ok transcript => summarizeAndComplete env db1 episodeId episode transcript retries
                | .noCaptions msg => noCaptionsFailure db1 episodeId msg 1 0
                | .failure => genericFailure db1 episodeId retries 1 0
              else genericFailure db1 episodeId retries 0 0

/-! ## One-off submission and reprocess endpoints (`api/routes/episodes.py`) -/

inductive SubmitOutcome
  | alreadyAvailableSending
  | retryingFailed
  | alreadyProcessing
  | processingStarted
deriving DecidableEq, Repr

/-- Result of `submit_url`: new state, response branch, the episode ids
handed to `process_episode_task.delay`, and the `(userId, episodeId)`
pairs handed to `send_immediate_digest.delay`. -/
structure SubmitResult where
  db : DB
  outcome : SubmitOutcome
  scheduledProcess : List Nat
  scheduledImmediate : List (Nat × Nat)
deriving DecidableEq, Repr

/-- Model of `submit_url` from `api/routes/episodes.py` (`userId` is the
optional `user_id` of the request body). -/
def submit_url (sha256hex32 : String → String) (url : String) (userId : Option Nat)
    (db : DB) : SubmitResult :=
  let urlHash := get_url_hash sha256hex32 url
  match db.episodes.find? (fun e => e.uniqueId == urlHash) with
  | some existing =>
      if existing.status = .completed ∧ pyTruthyOptNat userId then
        ⟨db, .alreadyAvailableSending, [], [(userId.getD 0, existing.id)]⟩
      else if existing.status = .failed then
        let db' := updateEpisode db existing.id (fun e =>
          { e with status := .pending, errorMessage := none, url := normalize_url url })
        ⟨db', .retryingFailed, [existing.id], []⟩
      else if pyTruthyOptNat userId then
        let db' := { db with
          queue := db.queue ++ [⟨db.nextQueueId, userId.getD 0, existing.id⟩],
          nextQueueId := db.nextQueueId + 1 }
        ⟨db', .alreadyProcessing, [], []⟩
      else ⟨db, .alreadyProcessing, [], []⟩
  | none =>
      let normalized := normalize_url url
      let sourceType :=
        if pyContains normalized "youtube.com" || pyContains normalized "youtu.be" then "youtube"
        else if is_x_spaces_url normalized then "x_spaces"
        else "podcast"
      let newEp : Episode :=
        { id := db.nextEpisodeId, sourceId := none, uniqueId := urlHash, title := none,
          url := normalized,
          audioUrl := if sourceType = "podcast" then some url else none,
          transcript := none, summary := none, status := .pending,
          errorMessage := none, processedAt := none }
      let db1 := { db with episodes := db.episodes ++ [newEp],
                           nextEpisodeId := db.nextEpisodeId + 1 }
      let db2 :=
        if pyTruthyOptNat userId then
          { db1 with queue := db1.queue ++ [⟨db1.nextQueueId, userId.getD 0, newEp.id⟩],
                     nextQueueId := db1.nextQueueId + 1 }
        else db1
      ⟨db2, .processingStarted, [newEp.id], []⟩

inductive ReprocessOutcome
  | notFound
  | alreadyProcessing
  | restarted
deriving DecidableEq, Repr

structure ReprocessResult where
  db : DB
  outcome : ReprocessOutcome
  scheduledProcess : List Nat
deriving DecidableEq, Repr

/-- Model of `reprocess_episode` from `api/routes/episodes.py`. -/
def reprocess_episode (episodeId : Nat) (db : DB) : ReprocessResult :=
  match findEpisode db episodeId with
  | none => ⟨db, .notFound, []⟩
  | some episode =>
      if episode.status = .processing then ⟨db, .alreadyProcessing, []⟩
      else
        ⟨updateEpisode db episodeId (fun e => { e with status := .pending }),
         .restarted, [episodeId]⟩

/-! ## Digest dispatcher (`workers/tasks.py`, `send_user_digest_task`) -/

structure DigestEnv where
  telegram : String → String → Bool
  emailSend : String → String → Bool
  synthLLM : String → Option String
  mdToHtml : String → String

/-- Result classification of one `send_user_digest_task` invocation; the
retry constructors are as for the episode processor (fixed 300 s delay,
`max_retries=3`). -/
inductive DigestOutcome
  | userNotFound
  | noPendingItems
  | noCompletedSummaries
  | delivered (itemsCount : Nat)
  | retryScheduled (countdown : Nat)
  | permanentFailure
deriving DecidableEq, Repr

/-- Invocation result: final state, outcome, and the per-channel delivery
attempts actually made, as `(recipient, message)` pairs in attempt order. -/
structure DigestResult where
  db : DB
  outcome : DigestOutcome
  telegramSent : List (String × String)
  emailSent : List (String × String)
deriving DecidableEq, Repr

def DIGEST_MAX_RETRIES : Nat := 3

/-- Queue rows of one user, in table order. -/
def userQueueItems (db : DB) (userId : Nat) : List DigestQueueItem :=
  db.queue.filter (fun qi => qi.userId == userId)

/-- Summary-gathering loop of `send_user_digest_task`: keep the items whose
episode exists, has a truthy summary and is COMPLETED, as
`(title, summary)` pairs in queue order. -/
def gatherSummaries (db : DB) (items : List DigestQueueItem) : List (Option String × String) :=
  items.filterMap (fun item =>
    match findEpisode db item.episodeId with
    | some ep =>
        if pyTruthyOptStr ep.summary ∧ ep.status = .completed then
          some (ep.title, ep.summary.getD "")
        else none
    | none => none)

/-- Outcome of `raise self.retry(exc=e, countdown=300)` in the dispatcher. -/
def digestRetry (retries : Nat) : DigestOutcome :=
  if retries < DIGEST_MAX_RETRIES then .retryScheduled 300 else .permanentFailure

/-- Telegram attempt of the dispatcher, as the `(chat_id, message)` list of
attempts actually made (empty when the channel is not configured). -/
def tgAttemptList (user : User) (digest : String) : List (String × String) :=
  if pyTruthyOptStr user.telegramChatId then [(user.telegramChatId.getD "", digest)] else []

/-- Success of the Telegram attempt (`False` when not configured or the
send raised). -/
def tgSuccess (env : DigestEnv) (user : User) (digest : String) : Bool :=
  if pyTruthyOptStr user.telegramChatId then
    env.telegram (user.telegramChatId.getD "") digest
  else false

/-- Email attempt of the dispatcher (the body is the digest converted by
`markdown_to_html`). -/
def emAttemptList (env : DigestEnv) (user : User) (digest : String) : List (String × String) :=
  if pyTruthyOptStr user.email then [(user.email.getD "", env.mdToHtml digest)] else []

/-- Success of the email attempt. -/
def emSuccess (env : DigestEnv) (user : User) (digest : String) : Bool :=
  if pyTruthyOptStr user.email then
    env.emailSend (user.email.getD "") (env.mdToHtml digest)
  else false

/-- Model of `send_user_digest_task` from `workers/tasks.py`.  Each channel
is attempted inside its own `try`, so one channel's failure never skips the
other; the queue rows fetched at the start are all deleted when at least
one channel succeeded, and an all-channel failure raises into the generic
retry handler with the queue untouched. -/
def send_user_digest_task (env : DigestEnv) (retries userId : Nat) (db : DB) : DigestResult :=
  match findUser db userId with
  | none => ⟨db, .userNotFound, [], []⟩
  | some user =>
      if userQueueItems db userId = [] then ⟨db, .noPendingItems, [], []⟩
      else
        let summaries := gatherSummaries db (userQueueItems db userId)
        if summaries = [] then ⟨db, .noCompletedSummaries, [], []⟩
        else
          match synthesize_digest env.synthLLM summaries with
          | none => ⟨db, digestRetry retries, [], []⟩
          | some digest =>
              if tgSuccess env user digest || emSuccess env user digest then
                ⟨{ db with queue := db.queue.filter (fun qi => !(qi.userId == userId)) },
                 .delivered summaries.length, tgAttemptList user digest,
                 emAttemptList env user digest⟩
              else
                ⟨db, digestRetry retries, tgAttemptList user digest,
                 emAttemptList env user digest⟩

/-! ## Concrete fixtures used by witnesses and counterexamples -/

/-- Fixture: a COMPLETED one-off episode. -/
def epCompletedFx : Episode :=
  ⟨1, none, "u1", some "T", "https://youtube.com/watch?v=abc12345678", none,
   some "tr", some "sum", .completed, none, some 5⟩

def dbCompletedFx : DB := ⟨[epCompletedFx], [], [], [], [], 2, 1⟩

/-- Fixture: a FAILED one-off episode carrying an error message. -/
def epFailedFx : Episode :=
  ⟨1, none, "u1", some "T", "https://youtube.com/watch?v=abc12345678", none,
   none, none, .failed, some "boom", none⟩

def dbFailedFx : DB := ⟨[epFailedFx], [], [], [], [], 2, 1⟩

/-- Fixture: a hash function mapping everything to the stored uniqueId. -/
def shaFx : String → String := fun _ => "u1"

/-- Fixture: a PROCESSING one-off YouTube episode. -/
def epProcessingFx : Episode :=
  ⟨1, none, "u1", some "T", "https://youtube.com/watch?v=abc12345678", none,
   none, none, .processing, none, none⟩

def dbProcessingFx : DB := ⟨[epProcessingFx], [], [], [], [], 2, 1⟩

/-- Fixture: a PENDING one-off YouTube episode. -/
def epPendingFx : Episode :=
  ⟨1, none, "u1", some "T", "https://youtube.com/watch?v=abc12345678", none,
   none, none, .pending, none, none⟩

def dbPendingFx : DB := ⟨[epPendingFx], [], [], [], [], 2, 1⟩

/-- Fixture: capability environment in which every call succeeds. -/
def envOkFx : ProcEnv :=
  ⟨fun _ => some "T", fun _ => .ok "the transcript", fun _ => .ok "the transcript",
   fun _ => .ok "the transcript", fun _ => some "the summary", 42⟩

/-- Fixture: environment whose YouTube path raises `NoCaptionsError`. -/
def envNoCapFx : ProcEnv :=
  ⟨fun _ => some "T", fun _ => .noCaptions "no captions", fun _ => .failure,
   fun _ => .failure, fun _ => none, 42⟩

/-- Fixture: environment whose transcription raises a generic error. -/
def envFailFx : ProcEnv :=
  ⟨fun _ => some "T", fun _ => .failure, fun _ => .failure,
   fun _ => .failure, fun _ => none, 42⟩

/-- Fixture: a user reachable over Telegram only. -/
def userTgFx : User := ⟨1, none, some "chat1", "08:00"⟩

/-- Fixture: a user reachable over Telegram and email. -/
def userBothFx : User := ⟨1, some "u@example.com", some "chat1", "08:00"⟩

/-- Fixture: a second, PENDING episode for queue-frame counterexamples. -/
def epPendingFx2 : Episode :=
  ⟨2, none, "u2", some "T2", "https://youtube.com/watch?v=xyz12345678", none,
   none, none, .pending, none, none⟩

/-- Fixture: one COMPLETED and one PENDING episode both queued for user 1. -/
def dbC1Fx : DB :=
  ⟨[epCompletedFx, epPendingFx2], [], [userTgFx], [], [⟨1, 1, 1⟩, ⟨2, 1, 2⟩], 3, 3⟩

/-- Fixture: delivery environment in which both channels succeed. -/
def envDigestOkFx : DigestEnv :=
  ⟨fun _ _ => true, fun _ _ => true, fun _ => some "synth", fun s => s⟩

/-- Fixture: delivery environment in which Telegram fails and email works. -/
def envTgFailFx : DigestEnv :=
  ⟨fun _ _ => false, fun _ _ => true, fun _ => some "synth", fun s => s⟩

/-- Fixture: delivery environment in which every channel fails. -/
def envAllFailFx : DigestEnv :=
  ⟨fun _ _ => false, fun _ _ => false, fun _ => some "synth", fun s => s⟩

/-- Fixture: a single COMPLETED episode queued for the Telegram-only user. -/
def dbC4Fx : DB := ⟨[epCompletedFx], [], [userTgFx], [], [⟨1, 1, 1⟩], 2, 2⟩

/-- Fixture: a single COMPLETED episode queued for the two-channel user. -/
def dbC7Fx : DB := ⟨[epCompletedFx], [], [userBothFx], [], [⟨1, 1, 1⟩], 2, 2⟩

/-- Fixture: a PENDING episode already queued once for user 7. -/
def dbC3Fx : DB := ⟨[epPendingFx], [], [], [], [⟨1, 7, 1⟩], 2, 2⟩

/-- Fixture: a COMPLETED episode attached to source 5 with one subscriber. -/
def epDoneSrcFx : Episode :=
  ⟨3, some 5, "u3", some "T3", "https://youtube.com/watch?v=qqq12345678", none,
   none, some "s3", .completed, none, none⟩

def dbSubsFx : DB := ⟨[epDoneSrcFx], [], [], [⟨1, 7, 5⟩], [], 4, 1⟩

/-! ## Helper lemmas on the string scans -/

/-- Characters YouTube video ids are drawn from (`[a-zA-Z0-9_-]`). -/
def videoIdChar (c : Char) : Bool := c.isAlphanum || c = '-' || c = '_'

theorem headMatch_clean (pat : List Char) (a : Char) (ha : a ∈ pat)
    (hbad : videoIdChar a = false) :
    ∀ cs : List Char, (∀ c ∈ cs, videoIdChar c = true) → headMatch pat cs = false := by
  induction pat with
  | nil => cases ha
  | cons p ps ih =>
    intro cs hcs
    cases cs with
    | nil => rfl
    | cons c cs' =>
      by_cases hpc : p = c
      · have hgc : videoIdChar c = true := hcs c (List.mem_cons_self c cs')
        rcases List.mem_cons.mp ha with h | h
        · subst h; rw [hpc] at hbad; rw [hbad] at hgc; cases hgc
        · simp only [headMatch, if_pos hpc]
          exact ih h cs' (fun x hx => hcs x (List.mem_cons_of_mem c hx))
      · simp [headMatch, hpc]

theorem containsCore_clean (pat : List Char) (a : Char) (ha : a ∈ pat)
    (hbad : videoIdChar a = false) :
    ∀ cs : List Char, (∀ c ∈ cs, videoIdChar c = true) → containsCore pat cs = false := by
  intro cs hcs
  induction cs with
  | nil =>
    simp only [containsCore]
    exact headMatch_clean pat a ha hbad [] (by intro c hc; cases hc)
  | cons c cs' ih =>
    simp only [containsCore]
    rw [headMatch_clean pat a ha hbad (c :: cs') hcs,
        ih (fun x hx => hcs x (List.mem_cons_of_mem c hx))]
    rfl

theorem beforeFirst_clean (pat : List Char) (a : Char) (ha : a ∈ pat)
    (hbad : videoIdChar a = false) :
    ∀ cs : List Char, (∀ c ∈ cs, videoIdChar c = true) → beforeFirst pat cs = cs := by
  intro cs hcs
  induction cs with
  | nil => rfl
  | cons c cs' ih =>
    simp only [beforeFirst]
    rw [headMatch_clean pat a ha hbad (c :: cs') hcs]
    rw [if_neg (by simp), ih (fun x hx => hcs x (List.mem_cons_of_mem c hx))]

theorem afterLastGo_clean (pat : List Char) (a : Char) (ha : a ∈ pat)
    (hbad : videoIdChar a = false) :
    ∀ cs : List Char, (∀ c ∈ cs, videoIdChar c = true) →
      ∀ best, afterLastGo pat best cs = best := by
  intro cs hcs
  induction cs with
  | nil => intro best; rfl
  | cons c cs' ih =>
    intro best
    simp only [afterLastGo]
    rw [headMatch_clean pat a ha hbad (c :: cs') hcs]
    rw [if_neg (by simp)]
    exact ih (fun x hx => hcs x (List.mem_cons_of_mem c hx)) best

/-- Normalization of the `watch?v=` shape for an arbitrary clean id. -/
theorem norm_watch (id : String) (hchars : ∀ c ∈ id.data, videoIdChar c = true) :
    normalize_url ("https://www.youtube.com/watch?v=" ++ id) =
      "https://youtube.com/watch?v=" ++ id := by
  have hdata : ("https://www.youtube.com/watch?v=" ++ id).data =
      'h' :: 't' :: 't' :: 'p' :: 's' :: ':' :: '/' :: '/' :: 'w' :: 'w' :: 'w' :: '.' :: 'y' :: 'o' :: 'u' :: 't' :: 'u' :: 'b' :: 'e' :: '.' :: 'c' :: 'o' :: 'm' :: '/' :: 'w' :: 'a' :: 't' :: 'c' :: 'h' :: '?' :: 'v' :: '=' :: id.data := by
    rw [String.data_append]; rfl
  have hnb : containsCore "youtu.be/".data id.data = false :=
    containsCore_clean _ '.' (by decide) (by decide) _ hchars
  have hal : ∀ best, afterLastGo "v=".data best id.data = best :=
    afterLastGo_clean _ '=' (by decide) (by decide) _ hchars
  have hbf : beforeFirst "&".data id.data = id.data :=
    beforeFirst_clean _ '&' (by decide) (by decide) _ hchars
  simp only [normalize_url, pyContains, pySplitHead, pySplitLast, hdata]
  simp [containsCore, headMatch, dropPat, beforeFirst, afterLastGo, hnb, hal, hbf]

/-- Normalization of the `youtu.be/` shape for an arbitrary clean id. -/
theorem norm_youtu_be (id : String) (hchars : ∀ c ∈ id.data, videoIdChar c = true) :
    normalize_url ("https://youtu.be/" ++ id) = "https://youtube.com/watch?v=" ++ id := by
  have hdata : ("https://youtu.be/" ++ id).data =
      'h' :: 't' :: 't' :: 'p' :: 's' :: ':' :: '/' :: '/' :: 'y' :: 'o' :: 'u' :: 't' :: 'u' :: '.' :: 'b' :: 'e' :: '/' :: id.data := by
    rw [String.data_append]; rfl
  have hyc : containsCore "youtube.com".data id.data = false :=
    containsCore_clean _ '.' (by decide) (by decide) _ hchars
  have hal : ∀ best, afterLastGo "youtu.be/".data best id.data = best :=
    afterLastGo_clean _ '.' (by decide) (by decide) _ hchars
  have hbf : beforeFirst "?".data id.data = id.data :=
    beforeFirst_clean _ '?' (by decide) (by decide) _ hchars
  simp only [normalize_url, pyContains, pySplitHead, pySplitLast, hdata]
  simp [containsCore, headMatch, dropPat, beforeFirst, afterLastGo, hyc, hal, hbf]

/-! ## Claim C5 -/

/-- C5 counterexample: the claim quantifies over the `/embed/` shape as
well, but `normalize_url` has no `/embed/` case: such a URL contains
`youtube.com` but neither `youtu.be/` nor `v=`, so the whole raw URL is
used as the video id and the result is not the canonical form the claim
demands (while the `watch?v=` shape of the same video does normalize to
it). -/
theorem C5_counterexample :
    normalize_url "https://www.youtube.com/embed/dQw4w9WgXcQ" ≠
      "https://youtube.com/watch?v=dQw4w9WgXcQ" ∧
    normalize_url "https://www.youtube.com/embed/dQw4w9WgXcQ" =
      "https://youtube.com/watch?v=https://www.youtube.com/embed/dQw4w9WgXcQ" ∧
    normalize_url "https://www.youtube.com/watch?v=dQw4w9WgXcQ" =
      "https://youtube.com/watch?v=dQw4w9WgXcQ" := by
  refine ⟨by decide, by decide, by decide⟩

/-- C5 (amended): for every 11-character video id over `[a-zA-Z0-9_-]`, the
`watch?v=` and `youtu.be/` URL shapes normalize to the identical canonical
URL `https://youtube.com/watch?v=<id>`, and hashing therefore yields the
identical `uniqueId` for both variants; the `/embed/` shape is not
normalized to this canonical form (it falls through with the whole URL as
the id, see the counterexample). -/
theorem C5_normalize_same_id (id : String) (hlen : id.data.length = 11)
    (hchars : ∀ c ∈ id.data, videoIdChar c = true) :
    normalize_url ("https://www.youtube.com/watch?v=" ++ id) =
      "https://youtube.com/watch?v=" ++ id ∧
    normalize_url ("https://youtu.be/" ++ id) = "https://youtube.com/watch?v=" ++ id ∧
    ∀ sha256hex32 : String → String,
      get_url_hash sha256hex32 ("https://www.youtube.com/watch?v=" ++ id) =
        get_url_hash sha256hex32 ("https://youtu.be/" ++ id) := by
  refine ⟨norm_watch id hchars, norm_youtu_be id hchars, fun sha => ?_⟩
  unfold get_url_hash
  rw [norm_watch id hchars, norm_youtu_be id hchars]

/-- C5 witness: the amended theorem applied to the concrete id
`dQw4w9WgXcQ`. -/
theorem C5_normalize_same_id_witness :
    normalize_url ("https://www.youtube.com/watch?v=" ++ "dQw4w9WgXcQ") =
      "https://youtube.com/watch?v=" ++ "dQw4w9WgXcQ" ∧
    normalize_url ("https://youtu.be/" ++ "dQw4w9WgXcQ") =
      "https://youtube.com/watch?v=" ++ "dQw4w9WgXcQ" ∧
    ∀ sha256hex32 : String → String,
      get_url_hash sha256hex32 ("https://www.youtube.com/watch?v=" ++ "dQw4w9WgXcQ") =
        get_url_hash sha256hex32 ("https://youtu.be/" ++ "dQw4w9WgXcQ") :=
  C5_normalize_same_id "dQw4w9WgXcQ" (by decide) (by decide)

/-! ## Registry helper lemmas -/

/-- Point update commutes with lookup by primary key, provided the update
preserves the key. -/
theorem find?_update (l : List Episode) (i : Nat) (f : Episode → Episode)
    (hf : ∀ e, (f e).id = e.id) :
    (l.map (fun e => if e.id = i then f e else e)).find? (fun e => e.id == i) =
      (l.find? (fun e => e.id == i)).map f := by
  induction l with
  | nil => rfl
  | cons e l ih =>
    by_cases h : e.id = i
    · have hb : ((f e).id == i) = true := by rw [hf e]; exact beq_iff_eq.mpr h
      have hb2 : (e.id == i) = true := beq_iff_eq.mpr h
      simp only [List.map_cons, if_pos h, List.find?, hb, hb2, Option.map_some']
    · have hb : (e.id == i) = false := beq_eq_false_iff_ne.mpr h
      simp only [List.map_cons, if_neg h, List.find?, hb]
      exact ih

theorem findEpisode_update (db : DB) (i : Nat) (f : Episode → Episode)
    (hf : ∀ e, (f e).id = e.id) :
    findEpisode (updateEpisode db i f) i = (findEpisode db i).map f := by
  unfold findEpisode updateEpisode
  exact find?_update db.episodes i f hf

/-! ## Claim C10 -/

/-- C10: the reprocess endpoint resets every episode that is not PROCESSING
— including a COMPLETED one — to PENDING and re-enqueues it for
processing, and returns without touching any state when the episode is in
PROCESSING; the reset is not restricted to FAILED episodes. -/
theorem C10_reprocess (db : DB) (episodeId : Nat) (ep : Episode)
    (hfind : findEpisode db episodeId = some ep) :
    (ep.status = .processing → reprocess_episode episodeId db = ⟨db, .alreadyProcessing, []⟩) ∧
    (ep.status ≠ .processing →
      reprocess_episode episodeId db =
        ⟨updateEpisode db episodeId (fun e => { e with status := .pending }),
         .restarted, [episodeId]⟩) := by
  constructor <;> intro h <;> simp [reprocess_episode, hfind, h]

/-- C10 witness: a COMPLETED episode is reset to PENDING and re-enqueued. -/
theorem C10_reprocess_witness :
    epCompletedFx.status ≠ .processing ∧
    reprocess_episode 1 dbCompletedFx =
      ⟨updateEpisode dbCompletedFx 1 (fun e => { e with status := .pending }),
       .restarted, [1]⟩ :=
  ⟨by decide,
   (C10_reprocess dbCompletedFx 1 epCompletedFx (by decide)).2 (by decide)⟩

/-! ## Claim C9 -/

/-- C9 counterexample: reprocessing a FAILED episode that carries an error
message moves it to PENDING but leaves `errorMessage` set, contradicting
the claim that every FAILED→PENDING transition also clears the message. -/
theorem C9_counterexample :
    epStatus (reprocess_episode 1 dbFailedFx).db 1 = some .pending ∧
    epError (reprocess_episode 1 dbFailedFx).db 1 = some (some "boom") := by
  refine ⟨by decide, by decide⟩

/-- C9 (amended): the retry-submission path (`submit_url` hitting an
existing FAILED episode) sets it to PENDING and clears `errorMessage` in
the same transition; the reprocess endpoint also performs FAILED→PENDING
but leaves `errorMessage` untouched. -/
theorem C9_error_message_clearing :
    (∀ (sha256hex32 : String → String) (url : String) (uid : Option Nat) (db : DB)
        (ep : Episode),
      db.episodes.find? (fun e => e.uniqueId == get_url_hash sha256hex32 url) = some ep →
      findEpisode db ep.id = some ep →
      ep.status = .failed →
      epStatus (submit_url sha256hex32 url uid db).db ep.id = some .pending ∧
      epError (submit_url sha256hex32 url uid db).db ep.id = some none) ∧
    (∀ (db : DB) (episodeId : Nat) (ep : Episode),
      findEpisode db episodeId = some ep →
      ep.status ≠ .processing →
      epStatus (reprocess_episode episodeId db).db episodeId = some .pending ∧
      epError (reprocess_episode episodeId db).db episodeId = some ep.errorMessage) := by
  constructor
  · intro sha url uid db ep hfind hid hfailed
    have hnc : ¬(ep.status = .completed ∧ pyTruthyOptNat uid = true) := by
      rintro ⟨hc, -⟩; rw [hfailed] at hc; cases hc
    simp only [submit_url, hfind]
    rw [if_neg hnc, if_pos hfailed]
    dsimp only
    unfold epStatus epError
    rw [findEpisode_update db ep.id
        (fun e => { e with status := .pending, errorMessage := none, url := normalize_url url })
        (fun e => rfl), hid]
    exact ⟨rfl, rfl⟩
  · intro db episodeId ep hfind hnp
    simp only [reprocess_episode, hfind]
    rw [if_neg hnp]
    dsimp only
    unfold epStatus epError
    rw [findEpisode_update db episodeId (fun e => { e with status := .pending })
        (fun e => rfl), hfind]
    exact ⟨rfl, rfl⟩

/-- C9 witness: both branches of the amended theorem at concrete inputs —
the retry submission clears the message, the reprocess endpoint keeps it. -/
theorem C9_error_message_clearing_witness :
    (epStatus (submit_url shaFx "https://youtu.be/abc12345678" none dbFailedFx).db 1 =
        some .pending ∧
      epError (submit_url shaFx "https://youtu.be/abc12345678" none dbFailedFx).db 1 =
        some none) ∧
    (epStatus (reprocess_episode 2 ⟨[⟨2, none, "u2", some "T",
          "https://youtube.com/watch?v=abc12345678", none, none, none, .failed,
          some "boom", none⟩], [], [], [], [], 3, 1⟩).db 2 = some .pending ∧
      epError (reprocess_episode 2 ⟨[⟨2, none, "u2", some "T",
          "https://youtube.com/watch?v=abc12345678", none, none, none, .failed,
          some "boom", none⟩], [], [], [], [], 3, 1⟩).db 2 = some (some "boom")) :=
  ⟨C9_error_message_clearing.1 shaFx "https://youtu.be/abc12345678" none dbFailedFx epFailedFx
      (by decide) (by decide) (by decide),
   C9_error_message_clearing.2 ⟨[⟨2, none, "u2", some "T",
        "https://youtube.com/watch?v=abc12345678", none, none, none, .failed,
        some "boom", none⟩], [], [], [], [], 3, 1⟩ 2
      ⟨2, none, "u2", some "T", "https://youtube.com/watch?v=abc12345678", none, none, none,
        .failed, some "boom", none⟩ (by decide) (by decide)⟩

/-! ## Claim C8 -/

/-- C8: for a transcript longer than the configured cap the text handed to
the summarization call is exactly the first `max_chars` characters with the
explicit truncation marker appended; a transcript within the cap is passed
unchanged. -/
theorem C8_transcript_cap (llm : String → Option String) (transcript : String)
    (maxChars : Nat) :
    (pyLen transcript > maxChars →
      summarize_transcript llm transcript maxChars =
        llm (SUMMARY_PROMPT_PRE ++ (pySlice transcript maxChars ++ TRUNCATION_MARKER) ++ "\n")) ∧
    (pyLen transcript ≤ maxChars →
      summarize_transcript llm transcript maxChars =
        llm (SUMMARY_PROMPT_PRE ++ transcript ++ "\n")) := by
  unfold summarize_transcript cappedTranscript
  constructor
  · intro h; rw [if_pos h]
  · intro h; rw [if_neg (by omega)]

/-- C8 witness: the cap theorem applied at `max_chars = 3` to a 6-character
and a 2-character transcript. -/
theorem C8_transcript_cap_witness :
    (pyLen "abcdef" > 3 ∧
      summarize_transcript some "abcdef" 3 =
        some (SUMMARY_PROMPT_PRE ++ (pySlice "abcdef" 3 ++ TRUNCATION_MARKER) ++ "\n")) ∧
    (pyLen "ab" ≤ 3 ∧
      summarize_transcript some "ab" 3 = some (SUMMARY_PROMPT_PRE ++ "ab" ++ "\n")) :=
  ⟨⟨by decide, (C8_transcript_cap some "abcdef" 3).1 (by decide)⟩,
   ⟨by decide, (C8_transcript_cap some "ab" 3).2 (by decide)⟩⟩

/-! ## Claim C2 -/

/-- C2 counterexample: the processor's idempotence guard only checks
COMPLETED, so invoking it on an episode already in PROCESSING runs a full
transcribe/summarize cycle again instead of no-opping: one transcription
call, one summarization call, and the episode moves to COMPLETED. -/
theorem C2_counterexample :
    epStatus dbProcessingFx 1 = some .processing ∧
    (process_episode_task envOkFx 0 1 dbProcessingFx).transcribeCalls = 1 ∧
    (process_episode_task envOkFx 0 1 dbProcessingFx).summarizeCalls = 1 ∧
    epStatus (process_episode_task envOkFx 0 1 dbProcessingFx).db 1 = some .completed := by
  refine ⟨by decide, by decide, by decide, by decide⟩

/-- C2 (amended): the processor no-ops only when the episode is COMPLETED;
an invocation that observes PROCESSING is not short-circuited — for a
one-off YouTube episode it performs a transcription call again and does not
return the idempotent short-circuit, so two invocations for the same id
can run two transcribe/summarize cycles. -/
theorem C2_only_completed_short_circuits (env : ProcEnv) (retries episodeId : Nat)
    (db : DB) (ep : Episode) (hfind : findEpisode db episodeId = some ep) :
    (ep.status = .completed →
      process_episode_task env retries episodeId db = ⟨db, .alreadyCompleted, 0, 0⟩) ∧
    (ep.status = .processing → ep.sourceId = none →
      pyContains ep.url "youtube.com" = true →
      (process_episode_task env retries episodeId db).transcribeCalls = 1 ∧
      (process_episode_task env retries episodeId db).outcome ≠ .alreadyCompleted) := by
  constructor
  · intro h
    simp [process_episode_task, hfind, h]
  · intro hproc hsid hurl
    have hnc : ep.status ≠ .completed := by rw [hproc]; intro hh; cases hh
    have hdet : ∀ db2 : DB, detectSourceType db2 ep = some "youtube" := by
      intro db2
      unfold detectSourceType
      rw [hsid]
      simp [hurl]
    simp only [process_episode_task, hfind]
    rw [if_neg hnc, hdet]
    dsimp only
    rw [if_pos rfl]
    cases env.processYoutube ep.url with
    | ok t =>
        dsimp only
        unfold summarizeAndComplete
        cases summarize_transcript env.summarizeLLM t SUMMARIZE_MAX_CHARS with
        | none =>
            dsimp only
            unfold genericFailure scheduleRetry
            constructor
            · rfl
            · dsimp only; split <;> intro hh <;> cases hh
        | some s =>
            dsimp only
            exact ⟨rfl, by intro hh; cases hh⟩
    | noCaptions msg =>
        dsimp only
        unfold noCaptionsFailure
        exact ⟨rfl, by intro hh; cases hh⟩
    | failure =>
        dsimp only
        unfold genericFailure scheduleRetry
        constructor
        · rfl
        · dsimp only; split <;> intro hh <;> cases hh

/-- C2 witness: the amended theorem applied to a COMPLETED fixture (the
short circuit) and to the PROCESSING fixture (the re-run). -/
theorem C2_only_completed_short_circuits_witness :
    (process_episode_task envOkFx 0 1 dbCompletedFx = ⟨dbCompletedFx, .alreadyCompleted, 0, 0⟩) ∧
    ((process_episode_task envOkFx 0 1 dbProcessingFx).transcribeCalls = 1 ∧
      (process_episode_task envOkFx 0 1 dbProcessingFx).outcome ≠ .alreadyCompleted) :=
  ⟨(C2_only_completed_short_circuits envOkFx 0 1 dbCompletedFx epCompletedFx
      (by decide)).1 (by decide),
   (C2_only_completed_short_circuits envOkFx 0 1 dbProcessingFx epProcessingFx
      (by decide)).2 (by decide) (by decide) (by decide)⟩

/-! ## Claim C6 -/

theorem findEpisode_isSome_update (db : DB) (i : Nat) (f : Episode → Episode)
    (hf : ∀ e, (f e).id = e.id) :
    (findEpisode (updateEpisode db i f) i).isSome = (findEpisode db i).isSome := by
  rw [findEpisode_update db i f hf]
  cases findEpisode db i <;> rfl

theorem findEpisode_isSome_maybeFetchTitle (env : ProcEnv) (db : DB) (i : Nat)
    (e0 : Episode) :
    (findEpisode (maybeFetchTitle env db i e0) i).isSome = (findEpisode db i).isSome := by
  unfold maybeFetchTitle
  split
  · rfl
  · split
    · split
      · rfl
      · exact findEpisode_isSome_update db i
          (fun e => { e with title := some _ }) (fun e => rfl)
    · rfl

/-- Effect of the `NoCaptionsError` handler on the episode row and the
returned outcome. -/
theorem noCaptionsFailure_spec (db : DB) (i : Nat) (msg : String) (tc sc : Nat)
    (h : (findEpisode db i).isSome = true) :
    epStatus (noCaptionsFailure db i msg tc sc).db i = some .failed ∧
    epError (noCaptionsFailure db i msg tc sc).db i = some (some msg) ∧
    (noCaptionsFailure db i msg tc sc).outcome = .failedNoCaptions msg := by
  obtain ⟨e, he⟩ := Option.isSome_iff_exists.mp h
  unfold noCaptionsFailure
  rw [he]
  dsimp only
  unfold epStatus epError
  rw [findEpisode_update db i
      (fun e => { e with status := .failed, errorMessage := some msg }) (fun e => rfl), he]
  exact ⟨rfl, rfl, rfl⟩

/-- Effect of the generic exception handler on the episode row and the
returned outcome. -/
theorem genericFailure_spec (db : DB) (i retries tc sc : Nat)
    (h : (findEpisode db i).isSome = true) :
    epStatus (genericFailure db i retries tc sc).db i = some .failed ∧
    (genericFailure db i retries tc sc).outcome =
      scheduleRetry retries (60 * 2 ^ retries) := by
  obtain ⟨e, he⟩ := Option.isSome_iff_exists.mp h
  unfold genericFailure
  rw [he]
  dsimp only
  unfold epStatus
  rw [findEpisode_update db i (fun e => { e with status := .failed }) (fun e => rfl), he]
  exact ⟨rfl, rfl⟩

/-- C6: on a one-off YouTube episode picked up for processing, a
`NoCaptionsError` from transcription marks the episode FAILED with the
structured message and schedules no retry, while any other transcription
failure marks it FAILED and re-schedules with exponential backoff
`60 * 2 ** retries` while the budget lasts, after which the job fails
permanently and the episode remains FAILED. -/
theorem C6_failure_handling (env : ProcEnv) (retries episodeId : Nat) (db : DB)
    (ep : Episode) (hfind : findEpisode db episodeId = some ep)
    (hnc : ep.status ≠ .completed) (hsid : ep.sourceId = none)
    (hurl : pyContains ep.url "youtube.com" = true) :
    (∀ msg, env.processYoutube ep.url = .noCaptions msg →
      (process_episode_task env retries episodeId db).outcome = .failedNoCaptions msg ∧
      epStatus (process_episode_task env retries episodeId db).db episodeId = some .failed ∧
      epError (process_episode_task env retries episodeId db).db episodeId =
        some (some msg)) ∧
    (env.processYoutube ep.url = .failure →
      epStatus (process_episode_task env retries episodeId db).db episodeId = some .failed ∧
      (retries < PROCESS_MAX_RETRIES →
        (process_episode_task env retries episodeId db).outcome =
          .retryScheduled (60 * 2 ^ retries)) ∧
      (PROCESS_MAX_RETRIES ≤ retries →
        (process_episode_task env retries episodeId db).outcome = .permanentFailure)) := by
  have hdet : ∀ db2 : DB, detectSourceType db2 ep = some "youtube" := by
    intro db2
    unfold detectSourceType
    rw [hsid]
    simp [hurl]
  have hs2 : (findEpisode (maybeFetchTitle env (updateEpisode db episodeId
      (fun e => { e with status := .processing })) episodeId ep) episodeId).isSome = true := by
    rw [findEpisode_isSome_maybeFetchTitle,
        findEpisode_isSome_update db episodeId
          (fun e => { e with status := .processing }) (fun e => rfl),
        hfind]
    rfl
  constructor
  · intro msg henv
    simp only [process_episode_task, hfind]
    rw [if_neg hnc, hdet]
    dsimp only
    rw [if_pos rfl, henv]
    dsimp only
    obtain ⟨h1, h2, h3⟩ := noCaptionsFailure_spec _ episodeId msg 1 0 hs2
    exact ⟨h3, h1, h2⟩
  · intro henv
    simp only [process_episode_task, hfind]
    rw [if_neg hnc, hdet]
    dsimp only
    rw [if_pos rfl, henv]
    dsimp only
    obtain ⟨h1, h2⟩ := genericFailure_spec _ episodeId retries 1 0 hs2
    refine ⟨h1, ?_, ?_⟩
    · intro hr
      rw [h2]
      unfold scheduleRetry
      rw [if_pos hr]
    · intro hr
      rw [h2]
      unfold scheduleRetry
      rw [if_neg (by omega)]

/-- C6 witness: the failure-handling theorem applied to the PENDING YouTube
fixture, with a captionless environment (no retry, message set), a failing
environment with retry budget left (backoff 60), and a failing environment
with the budget exhausted (permanent failure). -/
theorem C6_failure_handling_witness :
    ((process_episode_task envNoCapFx 0 1 dbPendingFx).outcome =
        .failedNoCaptions "no captions" ∧
      epStatus (process_episode_task envNoCapFx 0 1 dbPendingFx).db 1 = some .failed ∧
      epError (process_episode_task envNoCapFx 0 1 dbPendingFx).db 1 =
        some (some "no captions")) ∧
    (epStatus (process_episode_task envFailFx 0 1 dbPendingFx).db 1 = some .failed) ∧
    ((process_episode_task envFailFx 0 1 dbPendingFx).outcome = .retryScheduled 60) ∧
    ((process_episode_task envFailFx 3 1 dbPendingFx).outcome = .permanentFailure) :=
  ⟨(C6_failure_handling envNoCapFx 0 1 dbPendingFx epPendingFx (by decide) (by decide)
      (by decide) (by decide)).1 "no captions" (by decide),
   ((C6_failure_handling envFailFx 0 1 dbPendingFx epPendingFx (by decide) (by decide)
      (by decide) (by decide)).2 (by decide)).1,
   ((C6_failure_handling envFailFx 0 1 dbPendingFx epPendingFx (by decide) (by decide)
      (by decide) (by decide)).2 (by decide)).2.1 (by decide),
   ((C6_failure_handling envFailFx 3 1 dbPendingFx epPendingFx (by decide) (by decide)
      (by decide) (by decide)).2 (by decide)).2.2 (by decide)⟩

/-! ## Dispatcher characterization -/

/-- One dispatcher invocation, fully characterized once the user is found,
the queue and summary list are non-empty and a digest was synthesized. -/
theorem send_user_digest_spec (env : DigestEnv) (retries userId : Nat) (db : DB)
    (user : User) (digest : String)
    (hfu : findUser db userId = some user)
    (hqi : userQueueItems db userId ≠ [])
    (hsynth : synthesize_digest env.synthLLM
        (gatherSummaries db (userQueueItems db userId)) = some digest)
    (hsum : gatherSummaries db (userQueueItems db userId) ≠ []) :
    send_user_digest_task env retries userId db =
      if tgSuccess env user digest || emSuccess env user digest then
        ⟨{ db with queue := db.queue.filter (fun qi => !(qi.userId == userId)) },
         .delivered (gatherSummaries db (userQueueItems db userId)).length,
         tgAttemptList user digest, emAttemptList env user digest⟩
      else
        ⟨db, digestRetry retries, tgAttemptList user digest,
         emAttemptList env user digest⟩ := by
  unfold send_user_digest_task
  rw [hfu]
  dsimp only
  rw [if_neg hqi, if_neg hsum, hsynth]

theorem tgAttemptList_eq (user : User) (digest chat : String)
    (h1 : user.telegramChatId = some chat) (h2 : chat ≠ "") :
    tgAttemptList user digest = [(chat, digest)] := by
  unfold tgAttemptList pyTruthyOptStr
  rw [h1]
  simp [h2]

theorem tgSuccess_eq (env : DigestEnv) (user : User) (digest chat : String)
    (h1 : user.telegramChatId = some chat) (h2 : chat ≠ "") :
    tgSuccess env user digest = env.telegram chat digest := by
  unfold tgSuccess pyTruthyOptStr
  rw [h1]
  simp [h2]

theorem emAttemptList_eq (env : DigestEnv) (user : User) (digest addr : String)
    (h1 : user.email = some addr) (h2 : addr ≠ "") :
    emAttemptList env user digest = [(addr, env.mdToHtml digest)] := by
  unfold emAttemptList pyTruthyOptStr
  rw [h1]
  simp [h2]

theorem emSuccess_eq (env : DigestEnv) (user : User) (digest addr : String)
    (h1 : user.email = some addr) (h2 : addr ≠ "") :
    emSuccess env user digest = env.emailSend addr (env.mdToHtml digest) := by
  unfold emSuccess pyTruthyOptStr
  rw [h1]
  simp [h2]

/-! ## Claim C1 -/

/-- C1 counterexample: user 1 has one COMPLETED and one still-PENDING
episode queued; the dispatch succeeds over Telegram and deletes *both*
queue rows — the item whose episode is not COMPLETED does not remain
queued, contrary to the claim. -/
theorem C1_counterexample :
    epStatus dbC1Fx 2 = some .pending ∧
    (userQueueItems dbC1Fx 1).map (fun qi => qi.episodeId) = [1, 2] ∧
    (send_user_digest_task envDigestOkFx 0 1 dbC1Fx).outcome = .delivered 1 ∧
    (send_user_digest_task envDigestOkFx 0 1 dbC1Fx).db.queue = [] := by
  refine ⟨by decide, by decide, by decide, by decide⟩

/-- C1 (amended): when the per-user dispatch succeeds (at least one channel
delivered), it removes *all* of that user's digest-queue rows — the
qualifying ones and also every row whose episode is not COMPLETED or has
an empty summary — while rows belonging to other users remain unchanged;
non-qualifying rows are not kept for a later run. -/
theorem C1_success_clears_whole_queue (env : DigestEnv) (retries userId : Nat)
    (db : DB) (user : User) (digest : String)
    (hfu : findUser db userId = some user)
    (hqi : userQueueItems db userId ≠ [])
    (hsum : gatherSummaries db (userQueueItems db userId) ≠ [])
    (hsynth : synthesize_digest env.synthLLM
        (gatherSummaries db (userQueueItems db userId)) = some digest)
    (hok : (tgSuccess env user digest || emSuccess env user digest) = true) :
    (send_user_digest_task env retries userId db).outcome =
      .delivered (gatherSummaries db (userQueueItems db userId)).length ∧
    (send_user_digest_task env retries userId db).db.queue =
      db.queue.filter (fun qi => !(qi.userId == userId)) := by
  rw [send_user_digest_spec env retries userId db user digest hfu hqi hsynth hsum,
      if_pos hok]
  exact ⟨rfl, rfl⟩

/-- C1 witness: the amended theorem applied to the two-row fixture; every
row of user 1 disappears. -/
theorem C1_success_clears_whole_queue_witness :
    (send_user_digest_task envDigestOkFx 0 1 dbC1Fx).outcome = .delivered 1 ∧
    (send_user_digest_task envDigestOkFx 0 1 dbC1Fx).db.queue =
      dbC1Fx.queue.filter (fun qi => !(qi.userId == 1)) :=
  C1_success_clears_whole_queue envDigestOkFx 0 1 dbC1Fx userTgFx "# T\n\nsum"
    (by decide) (by decide) (by decide) (by decide) (by decide)

/-! ## Claim C4 -/

/-- C4 counterexample: with exactly one qualifying item whose summary is
`"sum"`, the delivered Telegram message is `"# T\n\nsum"` — the title as a
Markdown heading followed by the summary — not the summary verbatim. -/
theorem C4_counterexample :
    gatherSummaries dbC4Fx (userQueueItems dbC4Fx 1) = [(some "T", "sum")] ∧
    (send_user_digest_task envDigestOkFx 0 1 dbC4Fx).telegramSent =
      [("chat1", "# T\n\nsum")] ∧
    "# T\n\nsum" ≠ "sum" := by
  refine ⟨by decide, by decide, by decide⟩

/-- C4 (amended): with exactly one qualifying item no synthesis call is
made (the result does not depend on the synthesis capability) and the
delivered message is `"# " ++ title ++ "\n\n" ++ summary`, the episode's
summary prefixed by its title as a heading rather than the bare summary;
with two or more qualifying items the synthesis capability is invoked on
the prompt built from the ordered `(title, summary)` pairs; and the
dispatcher hands exactly the synthesized digest to the channels. -/
theorem C4_single_item_title_heading :
    (∀ (t : Option String) (s : String) (llm llm2 : String → Option String),
      synthesize_digest llm [(t, s)] = some ("# " ++ renderOptTitle t ++ "\n\n" ++ s) ∧
      synthesize_digest llm [(t, s)] = synthesize_digest llm2 [(t, s)]) ∧
    (∀ (ss : List (Option String × String)) (llm : String → Option String),
      2 ≤ ss.length →
      synthesize_digest llm ss = llm (DIGEST_SYNTHESIS_PRE ++ synthFormat ss ++ "\n")) ∧
    (∀ (env : DigestEnv) (retries userId : Nat) (db : DB) (user : User) (digest : String),
      findUser db userId = some user →
      userQueueItems db userId ≠ [] →
      gatherSummaries db (userQueueItems db userId) ≠ [] →
      synthesize_digest env.synthLLM (gatherSummaries db (userQueueItems db userId)) =
        some digest →
      (send_user_digest_task env retries userId db).telegramSent =
        tgAttemptList user digest ∧
      (send_user_digest_task env retries userId db).emailSent =
        emAttemptList env user digest) := by
  refine ⟨fun t s llm llm2 => ⟨rfl, rfl⟩, ?_, ?_⟩
  · intro ss llm h2
    cases ss with
    | nil => simp at h2
    | cons x tail =>
      cases tail with
      | nil => simp at h2
      | cons y rest => rfl
  · intro env retries userId db user digest hfu hqi hsum hsynth
    rw [send_user_digest_spec env retries userId db user digest hfu hqi hsynth hsum]
    split <;> exact ⟨rfl, rfl⟩

/-- C4 witness: the amended theorem at the single-item fixture (heading
message, synthesis-independent) and at two concrete items (synthesis call
on the formatted pairs). -/
theorem C4_single_item_title_heading_witness :
    (synthesize_digest (fun _ => none) [(some "T", "sum")] = some ("# " ++ renderOptTitle (some "T") ++ "\n\n" ++ "sum") ∧
      synthesize_digest (fun _ => none) [(some "T", "sum")] =
        synthesize_digest (fun p => some p) [(some "T", "sum")]) ∧
    (synthesize_digest some [(some "A", "s1"), (some "B", "s2")] =
      some (DIGEST_SYNTHESIS_PRE ++
        synthFormat [(some "A", "s1"), (some "B", "s2")] ++ "\n")) ∧
    ((send_user_digest_task envDigestOkFx 0 1 dbC4Fx).telegramSent =
        tgAttemptList userTgFx "# T\n\nsum" ∧
      (send_user_digest_task envDigestOkFx 0 1 dbC4Fx).emailSent =
        emAttemptList envDigestOkFx userTgFx "# T\n\nsum") :=
  ⟨C4_single_item_title_heading.1 (some "T") "sum" (fun _ => none) (fun p => some p),
   C4_single_item_title_heading.2.1 [(some "A", "s1"), (some "B", "s2")] some (by decide),
   C4_single_item_title_heading.2.2 envDigestOkFx 0 1 dbC4Fx userTgFx "# T\n\nsum"
     (by decide) (by decide) (by decide) (by decide)⟩

/-! ## Claim C7 -/

/-- C7: with both channels configured, one dispatcher invocation attempts
delivery on each channel independently (both attempt lists are the
singleton attempt, whatever either channel returns); the queue is cleared
and the job reports delivered exactly when at least one channel succeeds;
and when every channel fails the job raises into the bounded fixed-delay
retry handler with the whole state — queue included — untouched. -/
theorem C7_per_channel_delivery (env : DigestEnv) (retries userId : Nat) (db : DB)
    (user : User) (chat addr digest : String)
    (hfu : findUser db userId = some user)
    (hchat : user.telegramChatId = some chat) (hchat2 : chat ≠ "")
    (haddr : user.email = some addr) (haddr2 : addr ≠ "")
    (hqi : userQueueItems db userId ≠ [])
    (hsum : gatherSummaries db (userQueueItems db userId) ≠ [])
    (hsynth : synthesize_digest env.synthLLM
        (gatherSummaries db (userQueueItems db userId)) = some digest) :
    (send_user_digest_task env retries userId db).telegramSent = [(chat, digest)] ∧
    (send_user_digest_task env retries userId db).emailSent =
      [(addr, env.mdToHtml digest)] ∧
    ((∃ n, (send_user_digest_task env retries userId db).outcome = .delivered n) ↔
      (env.telegram chat digest = true ∨
        env.emailSend addr (env.mdToHtml digest) = true)) ∧
    ((env.telegram chat digest = true ∨ env.emailSend addr (env.mdToHtml digest) = true) →
      (send_user_digest_task env retries userId db).db.queue =
        db.queue.filter (fun qi => !(qi.userId == userId))) ∧
    (env.telegram chat digest = false → env.emailSend addr (env.mdToHtml digest) = false →
      (send_user_digest_task env retries userId db).db = db ∧
      (send_user_digest_task env retries userId db).outcome = digestRetry retries) := by
  rw [send_user_digest_spec env retries userId db user digest hfu hqi hsynth hsum,
      tgSuccess_eq env user digest chat hchat hchat2,
      emSuccess_eq env user digest addr haddr haddr2]
  by_cases hok : (env.telegram chat digest ||
      env.emailSend addr (env.mdToHtml digest)) = true
  · have hd : env.telegram chat digest = true ∨
        env.emailSend addr (env.mdToHtml digest) = true := by
      revert hok
      cases env.telegram chat digest <;>
        cases env.emailSend addr (env.mdToHtml digest) <;> simp
    rw [if_pos hok]
    refine ⟨tgAttemptList_eq user digest chat hchat hchat2,
      emAttemptList_eq env user digest addr haddr haddr2, ?_, ?_, ?_⟩
    · exact ⟨fun _ => hd, fun _ => ⟨_, rfl⟩⟩
    · intro _; rfl
    · intro h1 h2
      rw [h1, h2] at hok
      exact absurd hok (by decide)
  · have hcomp : env.telegram chat digest = false ∧
        env.emailSend addr (env.mdToHtml digest) = false := by
      revert hok
      cases env.telegram chat digest <;>
        cases env.emailSend addr (env.mdToHtml digest) <;> simp
    rw [if_neg hok]
    refine ⟨tgAttemptList_eq user digest chat hchat hchat2,
      emAttemptList_eq env user digest addr haddr haddr2, ?_, ?_, ?_⟩
    · constructor
      · rintro ⟨n, hn⟩
        unfold digestRetry at hn
        revert hn
        split <;> intro hn <;> cases hn
      · rintro (h | h)
        · rw [hcomp.1] at h; cases h
        · rw [hcomp.2] at h; cases h
    · rintro (h | h)
      · rw [hcomp.1] at h; cases h
      · rw [hcomp.2] at h; cases h
    · intro _ _; exact ⟨rfl, rfl⟩

/-- C7 witness: the theorem applied to the two-channel fixture twice — with
a Telegram-failing environment (email still attempted and succeeding, so
the queue is cleared) and with an all-failing environment (retry scheduled,
state untouched). -/
theorem C7_per_channel_delivery_witness :
    ((send_user_digest_task envTgFailFx 0 1 dbC7Fx).telegramSent =
        [("chat1", "# T\n\nsum")] ∧
      (send_user_digest_task envTgFailFx 0 1 dbC7Fx).emailSent =
        [("u@example.com", envTgFailFx.mdToHtml "# T\n\nsum")] ∧
      (send_user_digest_task envTgFailFx 0 1 dbC7Fx).db.queue =
        dbC7Fx.queue.filter (fun qi => !(qi.userId == 1))) ∧
    ((send_user_digest_task envAllFailFx 0 1 dbC7Fx).db = dbC7Fx ∧
      (send_user_digest_task envAllFailFx 0 1 dbC7Fx).outcome = digestRetry 0) :=
  ⟨⟨(C7_per_channel_delivery envTgFailFx 0 1 dbC7Fx userBothFx "chat1" "u@example.com"
        "# T\n\nsum" (by decide) (by decide) (by decide) (by decide) (by decide)
        (by decide) (by decide) (by decide)).1,
    (C7_per_channel_delivery envTgFailFx 0 1 dbC7Fx userBothFx "chat1" "u@example.com"
        "# T\n\nsum" (by decide) (by decide) (by decide) (by decide) (by decide)
        (by decide) (by decide) (by decide)).2.1,
    (C7_per_channel_delivery envTgFailFx 0 1 dbC7Fx userBothFx "chat1" "u@example.com"
        "# T\n\nsum" (by decide) (by decide) (by decide) (by decide) (by decide)
        (by decide) (by decide) (by decide)).2.2.2.1 (Or.inr (by decide))⟩,
   (C7_per_channel_delivery envAllFailFx 0 1 dbC7Fx userBothFx "chat1" "u@example.com"
        "# T\n\nsum" (by decide) (by decide) (by decide) (by decide) (by decide)
        (by decide) (by decide) (by decide)).2.2.2.2 (by decide) (by decide)⟩

/-! ## Claim C3 -/

/-- The fan-out loop body preserves queue-pair uniqueness: a row is added
only after the in-session duplicate check came back empty. -/
theorem foldl_queue_step_invariant (epId : Nat) (subs : List Subscription) :
    ∀ acc : DB, queueInvariant acc →
      queueInvariant (subs.foldl (fun acc sub =>
        match acc.queue.find? (fun qi => qi.userId == sub.userId && qi.episodeId == epId) with
        | some _ => acc
        | none =>
            { acc with queue := acc.queue ++ [⟨acc.nextQueueId, sub.userId, epId⟩],
                       nextQueueId := acc.nextQueueId + 1 }) acc) := by
  induction subs with
  | nil => intro acc h; exact h
  | cons sub rest ih =>
    intro acc h
    rw [List.foldl_cons]
    apply ih
    cases hf : acc.queue.find? (fun qi => qi.userId == sub.userId && qi.episodeId == epId) with
    | some qi => exact h
    | none =>
        unfold queueInvariant at h ⊢
        dsimp only
        rw [List.map_append]
        have hnotin : (sub.userId, epId) ∉
            acc.queue.map (fun qi => (qi.userId, qi.episodeId)) := by
          intro hm
          obtain ⟨qi, hqi, hpair⟩ := List.mem_map.mp hm
          have h1 : qi.userId = sub.userId := congrArg Prod.fst hpair
          have h2 : qi.episodeId = epId := congrArg Prod.snd hpair
          have hnone := List.find?_eq_none.mp hf qi hqi
          apply hnone
          rw [h1, h2]
          simp
        simp [List.nodup_append, h, hnotin]

/-- Fan-out preserves the `(userId, episodeId)` uniqueness invariant. -/
theorem queue_for_subscribers_invariant (db : DB) (ep : Episode)
    (h : queueInvariant db) : queueInvariant (queue_for_subscribers db ep) := by
  unfold queue_for_subscribers
  exact foldl_queue_step_invariant ep.id _ db h

/-- C3 counterexample: the episode is still PENDING and already queued once
for user 7; submitting the same URL again with user id 7 appends a second
`(7, 1)` row without any duplicate check, breaking the uniqueness
invariant. -/
theorem C3_counterexample :
    queueInvariant dbC3Fx ∧
    ¬ queueInvariant (submit_url shaFx "https://youtu.be/abc12345678" (some 7) dbC3Fx).db ∧
    ((submit_url shaFx "https://youtu.be/abc12345678" (some 7) dbC3Fx).db.queue.map
        (fun qi => (qi.userId, qi.episodeId))) = [(7, 1), (7, 1)] := by
  refine ⟨by decide, by decide, by decide⟩

/-- C3 (amended): the fan-out on episode completion preserves the
no-duplicate `(userId, episodeId)` invariant, but the one-off submission
path does not: when the URL hash hits an existing episode that is neither
COMPLETED nor FAILED and a (non-zero) user id is supplied, a queue row for
that pair is appended unconditionally, so submitting the same URL twice
with the same user id before processing completes creates a duplicate
pair. -/
theorem C3_queue_uniqueness (sha256hex32 : String → String) (url : String) (n : Nat)
    (db : DB) (ep : Episode)
    (hfind : db.episodes.find? (fun e => e.uniqueId == get_url_hash sha256hex32 url) =
      some ep)
    (hnc : ep.status ≠ .completed) (hnf : ep.status ≠ .failed) (hn : n ≠ 0) :
    (∀ (db2 : DB) (ep2 : Episode), queueInvariant db2 →
      queueInvariant (queue_for_subscribers db2 ep2)) ∧
    (submit_url sha256hex32 url (some n) db).db.queue =
      db.queue ++ [⟨db.nextQueueId, n, ep.id⟩] := by
  constructor
  · intro db2 ep2 h2
    exact queue_for_subscribers_invariant db2 ep2 h2
  · have hc1 : ¬(ep.status = .completed ∧ pyTruthyOptNat (some n) = true) := by
      rintro ⟨hc, -⟩; exact hnc hc
    have htr : pyTruthyOptNat (some n) = true := by
      unfold pyTruthyOptNat; simp [hn]
    simp only [submit_url, hfind]
    rw [if_neg hc1, if_neg hnf, if_pos htr]
    rfl

/-- C3 witness: fan-out at a concrete subscribed source keeps the invariant
(and actually inserts the row), while the concrete duplicate-submission
conclusion of the amended theorem holds at the fixture. -/
theorem C3_queue_uniqueness_witness :
    queueInvariant (queue_for_subscribers dbSubsFx epDoneSrcFx) ∧
    (submit_url shaFx "https://youtu.be/abc12345678" (some 7) dbC3Fx).db.queue =
      dbC3Fx.queue ++ [⟨dbC3Fx.nextQueueId, 7, epPendingFx.id⟩] :=
  ⟨(C3_queue_uniqueness shaFx "https://youtu.be/abc12345678" 7 dbC3Fx epPendingFx
      (by decide) (by decide) (by decide) (by decide)).1 dbSubsFx epDoneSrcFx (by decide),
   (C3_queue_uniqueness shaFx "https://youtu.be/abc12345678" 7 dbC3Fx epPendingFx
      (by decide) (by decide) (by decide) (by decide)).2⟩

end MarketRecap
